import Mathlib

/-!
# Verification of the Reward & Streak Accrual Procedure

Shallow embedding of the chat request handler of this repository
(the `serve` handler in the Deno edge function, `src/unnamed/part_000`).

Modelling choices, each justified against the source:

* Calendar dates are modelled as epoch-day counts (`Nat`).  In the source,
  `today` is the date part of `new Date().toISOString()` — a `"YYYY-MM-DD"`
  string — and `profile.last_message_date` is a SQL `date` column returned
  as a `"YYYY-MM-DD"` string (or `null`, modelled as `Option Nat`).
  ECMAScript parses a date-only string as midnight UTC, so
  `new Date(s).getTime()` for such a string is exactly
  `epochDay(s) * 86400000` milliseconds; `dateMs` below is that function.
* The effectful steps of the handler that the claims mention (the external
  LLM call, the profile update, the ledger insert) are recorded in an
  ordered `List Effect`.  The insufficient-balance check (source lines
  68-70) throws before any of them, which in the embedding is the
  `Except.error` branch carrying no effect list at all.
* The LLM response text, token counts and message storage do not influence
  the reward computation (they are read only after the balance check and
  never feed back into points/streak arithmetic), so they are not modelled.
-/

namespace CChatEarn

/-- The literal `86400000` ("24 hours") from source line 136. -/
def msPerDay : Int := 86400000

/-- `new Date(s).getTime()` for a date-only string `s` whose calendar date is
epoch day `d`: midnight UTC, i.e. `d * 86400000` milliseconds. -/
def dateMs (d : Nat) : Int := (d : Int) * msPerDay

/-- The profile row columns selected by the handler (source lines 56-60). -/
structure Profile where
  reward_points : Int
  daily_streak : Int
  last_message_date : Option Nat
  total_messages : Nat
deriving DecidableEq, Repr

/-- A `reward_transactions` row as inserted by the handler
(source lines 181-188); the `user_id` column is the authenticated caller and
carries no information for the claims. -/
structure RewardTransaction where
  points_change : Int
  transaction_type : String
  description : String
deriving DecidableEq, Repr

/-- Source line 134:
`const isNewDay = !lastMessageDate || lastMessageDate !== today;`
(`!==` on two date-only strings is inequality of their calendar days). -/
def isNewDay (last : Option Nat) (today : Nat) : Bool :=
  match last with
  | none => true
  | some d => d != today

/-- Source lines 135-136:
`const isConsecutiveDay = lastMessageDate &&
  new Date(today).getTime() - new Date(lastMessageDate).getTime() === 86400000;`
A `null` date is falsy, so the conjunction is `false`; otherwise the
millisecond difference of the two UTC midnights is compared to `86400000`. -/
def isConsecutiveDay (last : Option Nat) (today : Nat) : Bool :=
  match last with
  | none => false
  | some d => dateMs today - dateMs d == msPerDay

/-- Modelled from the spec (§4.1 step 2): "`(today − lastMessageDate) ==
exactly 1 calendar day`, computed via calendar-date subtraction".  Stated on
epoch-day numbers: the signed day difference equals one.  Used only to compare
against the millisecond-based source `isConsecutiveDay`. -/
def consecutiveByCalendar (d today : Nat) : Prop :=
  (today : Int) - (d : Int) = 1

instance (d today : Nat) : Decidable (consecutiveByCalendar d today) := by
  unfold consecutiveByCalendar; infer_instance

/-- Source lines 138-151, the streak mutation, written functionally.
`newStreak` starts at `profile.daily_streak` and is reassigned exactly as in
the source block `if (isNewDay)`. -/
def newStreakCalc (profile : Profile) (today : Nat) : Int :=
  if isNewDay profile.last_message_date today then
    if isConsecutiveDay profile.last_message_date today then
      profile.daily_streak + 1
    else if profile.last_message_date.isSome then
      1
    else
      1
  else profile.daily_streak

/-- Source lines 138-151, the `pointsEarned` mutation: starts at 1 (base
points) and gains `+= 5` exactly on the `isNewDay && isConsecutiveDay`
branch. -/
def pointsEarnedCalc (profile : Profile) (today : Nat) : Int :=
  if isNewDay profile.last_message_date today then
    if isConsecutiveDay profile.last_message_date today then 1 + 5
    else 1
  else 1

/-- Source lines 153-157: `let pointChange = pointsEarned;
if (boost) { pointChange -= 10; }`. -/
def pointChangeCalc (profile : Profile) (today : Nat) (boost : Bool) : Int :=
  pointsEarnedCalc profile today - (if boost then 10 else 0)

/-- Source lines 160-167, the `profiles` update payload. -/
def updatedProfile (profile : Profile) (today : Nat) (boost : Bool) : Profile :=
  { reward_points := profile.reward_points + pointChangeCalc profile today boost
    daily_streak := newStreakCalc profile today
    last_message_date := some today
    total_messages := profile.total_messages + 1 }

/-- Source lines 175-193: the ledger insert, performed only when
`pointChange !== 0`, with kind and description chosen from the boost flag and
`pointsEarned`. -/
def transactionFor (profile : Profile) (today : Nat) (boost : Bool) :
    Option RewardTransaction :=
  let pointsEarned := pointsEarnedCalc profile today
  let newStreak := newStreakCalc profile today
  let pointChange := pointChangeCalc profile today boost
  if pointChange ≠ 0 then
    some
      { points_change := pointChange
        transaction_type :=
          if boost then "boost"
          else if pointsEarned > 1 then "streak" else "message"
        description :=
          if boost then "Boost used for priority response"
          else if pointsEarned > 1 then
            "Daily streak bonus (" ++ toString newStreak ++ " days)"
          else "Message sent" }
  else none

/-- The externally visible effects of the handler, in execution order: the Gemini
API call (source line 93), the profile update (line 160), the conditional
ledger insert (line 181). -/
inductive Effect where
  | llmCall
  | profileUpdate (p : Profile)
  | txnInsert (t : RewardTransaction)
deriving DecidableEq, Repr

/-- The reward-related fields of the JSON response of the handler
(source lines 235-244). -/
structure ChatResponse where
  pointsEarned : Int
  pointsSpent : Int
  newStreak : Int
  totalPoints : Int
deriving DecidableEq, Repr

/-- The reward path of the `serve` handler (source lines 68-193 and
235-248): the boost balance check throws "Insufficient points for boost.
Need 10 points." before the LLM call and before any write; otherwise the
handler performs the LLM call, the profile update, the conditional ledger
insert, and returns the reward fields. -/
def serveChat (profile : Profile) (today : Nat) (boost : Bool) :
    Except String (List Effect × ChatResponse) :=
  if boost ∧ profile.reward_points < 10 then
    Except.error "Insufficient points for boost. Need 10 points."
  else
    let pointChange := pointChangeCalc profile today boost
    Except.ok
      (Effect.llmCall :: Effect.profileUpdate (updatedProfile profile today boost) ::
        (match transactionFor profile today boost with
         | some t => [Effect.txnInsert t]
         | none => []),
       { pointsEarned := pointsEarnedCalc profile today
         pointsSpent := if boost then 10 else 0
         newStreak := newStreakCalc profile today
         totalPoints := profile.reward_points + pointChange })

/-! ## Helper lemmas (shared) -/

/-- The millisecond comparison on line 136, restricted to a present date,
decides exactly `today = d + 1` on epoch days. -/
theorem isConsecutiveDay_eq_true_iff (d today : Nat) :
    isConsecutiveDay (some d) today = true ↔ today = d + 1 := by
  show (dateMs today - dateMs d == msPerDay) = true ↔ today = d + 1
  rw [beq_iff_eq]
  simp only [dateMs, msPerDay]
  omega

/-- Negative form of `isConsecutiveDay_eq_true_iff`. -/
theorem isConsecutiveDay_eq_false_iff (d today : Nat) :
    isConsecutiveDay (some d) today = false ↔ today ≠ d + 1 := by
  rw [Bool.eq_false_iff]
  exact not_congr (isConsecutiveDay_eq_true_iff d today)

/-- Line 134 on a present date decides inequality of the two days. -/
theorem isNewDay_some_iff (d today : Nat) :
    isNewDay (some d) today = true ↔ d ≠ today := by
  show (d != today) = true ↔ d ≠ today
  simp [bne_iff_ne]

/-- On a same-day repeat, line 134 computes `isNewDay = false`. -/
theorem isNewDay_same (today : Nat) : isNewDay (some today) today = false := by
  simp [isNewDay]

/-- `pointsEarned` is always 1 or 6 (base 1, optional +5 streak bonus). -/
theorem pointsEarnedCalc_cases (p : Profile) (today : Nat) :
    pointsEarnedCalc p today = 1 ∨ pointsEarnedCalc p today = 6 := by
  unfold pointsEarnedCalc
  split
  · split
    · right; norm_num
    · left; rfl
  · left; rfl

/-- A same-day interaction does not change `daily_streak` and keeps
`last_message_date = today`. -/
theorem updatedProfile_same_day (q : Profile) (today : Nat) (b : Bool)
    (h : q.last_message_date = some today) :
    (updatedProfile q today b).daily_streak = q.daily_streak ∧
    (updatedProfile q today b).last_message_date = some today := by
  have hnew : isNewDay q.last_message_date today = false := by
    rw [h]; exact isNewDay_same today
  refine ⟨?_, rfl⟩
  simp [updatedProfile, newStreakCalc, hnew]

/-- Iterating same-day interactions preserves the streak and the date. -/
theorem iterate_same_day (p : Profile) (today : Nat) (b : Bool)
    (h : p.last_message_date = some today) (n : Nat) :
    ((fun q => updatedProfile q today b)^[n] p).daily_streak = p.daily_streak ∧
    ((fun q => updatedProfile q today b)^[n] p).last_message_date = some today := by
  induction n with
  | zero => exact ⟨rfl, h⟩
  | succ k ih =>
    rw [Function.iterate_succ_apply']
    obtain ⟨ihs, ihl⟩ := ih
    obtain ⟨hs, hl⟩ := updatedProfile_same_day _ today b ihl
    exact ⟨hs.trans ihs, hl⟩

/-- Inversion of a successful `serveChat` run: the balance check passed and
the effect list and response are exactly the ones built on lines 160-193 and
235-244. -/
theorem serveChat_ok_inv (p : Profile) (today : Nat) (boost : Bool)
    (effs : List Effect) (r : ChatResponse)
    (hok : serveChat p today boost = Except.ok (effs, r)) :
    ¬ (boost = true ∧ p.reward_points < 10) ∧
    effs = Effect.llmCall ::
      Effect.profileUpdate (updatedProfile p today boost) ::
      (match transactionFor p today boost with
       | some t => [Effect.txnInsert t]
       | none => []) ∧
    r = ⟨pointsEarnedCalc p today, if boost then 10 else 0,
         newStreakCalc p today,
         p.reward_points + pointChangeCalc p today boost⟩ := by
  by_cases hc : (boost = true ∧ p.reward_points < 10)
  · unfold serveChat at hok
    rw [if_pos hc] at hok
    cases hok
  · unfold serveChat at hok
    rw [if_neg hc] at hok
    simp only [Except.ok.injEq, Prod.mk.injEq] at hok
    obtain ⟨heffs, hr⟩ := hok
    exact ⟨hc, heffs.symm, hr.symm⟩

/-- An accepted interaction starting from a non-negative balance ends with a
balance of at least 1: without boost the delta is positive, and with boost the
precondition `reward_points >= 10` bounds the worst-case delta of -9. -/
theorem serveChat_ok_totalPoints_ge_one (p : Profile) (today : Nat)
    (boost : Bool) (effs : List Effect) (r : ChatResponse)
    (h0 : 0 ≤ p.reward_points)
    (hok : serveChat p today boost = Except.ok (effs, r)) :
    1 ≤ r.totalPoints := by
  obtain ⟨hc, -, hr⟩ := serveChat_ok_inv p today boost effs r hok
  rw [hr]
  show 1 ≤ p.reward_points + pointChangeCalc p today boost
  have hpe := pointsEarnedCalc_cases p today
  unfold pointChangeCalc
  cases boost with
  | false =>
    have hz : (if (false : Bool) = true then (10 : Int) else 0) = 0 := rfl
    rw [hz]
    rcases hpe with h | h <;> rw [h] <;> omega
  | true =>
    have h10 : 10 ≤ p.reward_points := by
      rcases lt_or_le p.reward_points 10 with hl | hg
      · exact absurd ⟨rfl, hl⟩ hc
      · exact hg
    have hz : (if (true : Bool) = true then (10 : Int) else 0) = 10 := rfl
    rw [hz]
    rcases hpe with h | h <;> rw [h] <;> omega

/-! ## Claims -/

/-- C1: with `boost = true` and `rewardPoints < 10`, the handler fails with
the insufficient-balance error before any state mutation: it produces no
effect list at all, so no profile field changes, no `RewardTransaction` is
created, and the external LLM call is never made. -/
theorem c1_boost_insufficient_rejected (p : Profile) (today : Nat)
    (h : p.reward_points < 10) :
    serveChat p today true =
      Except.error "Insufficient points for boost. Need 10 points." ∧
    ∀ effs r, serveChat p today true ≠ Except.ok (effs, r) := by
  have herr : serveChat p today true =
      Except.error "Insufficient points for boost. Need 10 points." := by
    unfold serveChat
    rw [if_pos ⟨rfl, h⟩]
  exact ⟨herr, fun effs r hok => by rw [herr] at hok; cases hok⟩

theorem c1_witness :
    (9 : Int) < 10 ∧
    serveChat ⟨9, 0, none, 0⟩ 5 true =
      Except.error "Insufficient points for boost. Need 10 points." :=
  ⟨by norm_num, (c1_boost_insufficient_rejected ⟨9, 0, none, 0⟩ 5 (by norm_num)).1⟩

/-- C2: on a new day, streak and points update by case on the previous date:
absent date gives streak 1 and 1 point; a gap of exactly one day increments
the streak and gives 6 points; a gap greater than one day resets the streak
to 1 and gives 1 point. -/
theorem c2_new_day_streak_points (p : Profile) (today : Nat) :
    (p.last_message_date = none →
      newStreakCalc p today = 1 ∧ pointsEarnedCalc p today = 1) ∧
    (∀ d, p.last_message_date = some d → today = d + 1 →
      newStreakCalc p today = p.daily_streak + 1 ∧
      pointsEarnedCalc p today = 6) ∧
    (∀ d, p.last_message_date = some d → d + 1 < today →
      newStreakCalc p today = 1 ∧ pointsEarnedCalc p today = 1) := by
  refine ⟨?_, ?_, ?_⟩
  · intro h
    constructor
    · unfold newStreakCalc
      rw [h]
      rfl
    · unfold pointsEarnedCalc
      rw [h]
      rfl
  · intro d hd ht
    have hnd : isNewDay (some d) today = true :=
      (isNewDay_some_iff d today).mpr (by omega)
    have hcons : isConsecutiveDay (some d) today = true :=
      (isConsecutiveDay_eq_true_iff d today).mpr ht
    constructor
    · unfold newStreakCalc
      rw [hd, hnd, hcons, if_pos rfl, if_pos rfl]
    · unfold pointsEarnedCalc
      rw [hd, hnd, hcons, if_pos rfl, if_pos rfl]
      norm_num
  · intro d hd ht
    have hnd : isNewDay (some d) today = true :=
      (isNewDay_some_iff d today).mpr (by omega)
    have hcons : isConsecutiveDay (some d) today = false :=
      (isConsecutiveDay_eq_false_iff d today).mpr (by omega)
    constructor
    · unfold newStreakCalc
      rw [hd, hnd, hcons, if_pos rfl, if_neg (by simp)]
      simp
    · unfold pointsEarnedCalc
      rw [hd, hnd, hcons, if_pos rfl, if_neg (by simp)]

theorem c2_witness :
    (newStreakCalc ⟨0, 7, none, 0⟩ 5 = 1 ∧ pointsEarnedCalc ⟨0, 7, none, 0⟩ 5 = 1) ∧
    (newStreakCalc ⟨0, 3, some 4, 0⟩ 5 = 3 + 1 ∧ pointsEarnedCalc ⟨0, 3, some 4, 0⟩ 5 = 6) ∧
    (newStreakCalc ⟨0, 3, some 2, 0⟩ 5 = 1 ∧ pointsEarnedCalc ⟨0, 3, some 2, 0⟩ 5 = 1) :=
  ⟨(c2_new_day_streak_points ⟨0, 7, none, 0⟩ 5).1 rfl,
   (c2_new_day_streak_points ⟨0, 3, some 4, 0⟩ 5).2.1 4 rfl rfl,
   (c2_new_day_streak_points ⟨0, 3, some 2, 0⟩ 5).2.2 2 rfl (by norm_num)⟩

/-- C3: for a present `lastMessageDate` the predicate computed on source
lines 135-136 by millisecond subtraction of the two UTC-midnight timestamps
holds exactly when the calendar-day difference `today - lastMessageDate`
equals 1; an absent date makes it false.  (On date-only values the literal
millisecond comparison and calendar-date subtraction coincide, because both
dates parse to UTC midnight.) -/
theorem c3_consecutive_calendar_equiv (last : Option Nat) (today : Nat) :
    isConsecutiveDay last today = true ↔
      ∃ d, last = some d ∧ consecutiveByCalendar d today := by
  cases last with
  | none => simp [isConsecutiveDay]
  | some d =>
    rw [isConsecutiveDay_eq_true_iff]
    simp only [Option.some.injEq, consecutiveByCalendar]
    constructor
    · intro h; exact ⟨d, rfl, by omega⟩
    · rintro ⟨e, he, hcal⟩; subst he; omega

theorem c3_witness : isConsecutiveDay (some 5) 6 = true :=
  (c3_consecutive_calendar_equiv (some 5) 6).mpr ⟨5, rfl, by decide⟩

/-- C4 (counterexample): with `lastMessageDate == today` — a last activity
date that exists and is not exactly one calendar day before today — one
interaction leaves the streak at 3 instead of resetting it to 1, refuting the
claim as worded. -/
theorem c4_counterexample :
    (updatedProfile ⟨0, 3, some 7, 0⟩ 7 false).daily_streak = 3 ∧
    newStreakCalc ⟨0, 3, some 7, 0⟩ 7 = 3 ∧ (3 : Int) ≠ 1 :=
  ⟨rfl, rfl, by norm_num⟩

/-- C4 (amended): the streak resets to 1 when the last activity date exists,
differs from today, and is not exactly one calendar day before today;
increments by 1 when exactly one day elapsed; initializes to 1 on a
first-ever interaction; and — unlike the claim as worded — stays unchanged
when the last activity date equals today. -/
theorem c4_streak_update (p : Profile) (today : Nat) :
    (∀ d, p.last_message_date = some d → d ≠ today → today ≠ d + 1 →
      newStreakCalc p today = 1) ∧
    (∀ d, p.last_message_date = some d → today = d + 1 →
      newStreakCalc p today = p.daily_streak + 1) ∧
    (p.last_message_date = none → newStreakCalc p today = 1) ∧
    (∀ d, p.last_message_date = some d → d = today →
      newStreakCalc p today = p.daily_streak) := by
  refine ⟨?_, ?_, ?_, ?_⟩
  · intro d hd hne h1
    have hnd : isNewDay (some d) today = true :=
      (isNewDay_some_iff d today).mpr hne
    have hcons : isConsecutiveDay (some d) today = false :=
      (isConsecutiveDay_eq_false_iff d today).mpr h1
    unfold newStreakCalc
    rw [hd, hnd, hcons, if_pos rfl, if_neg (by simp)]
    simp
  · intro d hd ht
    have hnd : isNewDay (some d) today = true :=
      (isNewDay_some_iff d today).mpr (by omega)
    have hcons : isConsecutiveDay (some d) today = true :=
      (isConsecutiveDay_eq_true_iff d today).mpr ht
    unfold newStreakCalc
    rw [hd, hnd, hcons, if_pos rfl, if_pos rfl]
  · intro h
    unfold newStreakCalc
    rw [h]
    rfl
  · intro d hd hdt
    subst hdt
    unfold newStreakCalc
    rw [hd, isNewDay_same, if_neg (by simp)]

theorem c4_witness :
    newStreakCalc ⟨0, 3, some 9, 0⟩ 5 = 1 ∧
    newStreakCalc ⟨0, 3, some 4, 0⟩ 5 = 3 + 1 ∧
    newStreakCalc ⟨0, 3, none, 0⟩ 5 = 1 ∧
    newStreakCalc ⟨0, 3, some 5, 0⟩ 5 = 3 :=
  ⟨(c4_streak_update ⟨0, 3, some 9, 0⟩ 5).1 9 rfl (by norm_num) (by norm_num),
   (c4_streak_update ⟨0, 3, some 4, 0⟩ 5).2.1 4 rfl rfl,
   (c4_streak_update ⟨0, 3, none, 0⟩ 5).2.2.1 rfl,
   (c4_streak_update ⟨0, 3, some 5, 0⟩ 5).2.2.2 5 rfl rfl⟩

/-- C5: with `lastMessageDate == today` an interaction leaves `dailyStreak`
unchanged and earns exactly 1 point; the updated profile again has
`lastMessageDate == today`, so any number of same-day invocations leaves the
streak unchanged between calls (only `totalMessages` and `rewardPoints`
move). -/
theorem c5_same_day_repeat (p : Profile) (today : Nat) (boost : Bool)
    (h : p.last_message_date = some today) :
    newStreakCalc p today = p.daily_streak ∧
    pointsEarnedCalc p today = 1 ∧
    (updatedProfile p today boost).daily_streak = p.daily_streak ∧
    (updatedProfile p today boost).last_message_date = some today ∧
    ∀ n, ((fun q => updatedProfile q today boost)^[n] p).daily_streak =
      p.daily_streak := by
  have hnd : isNewDay p.last_message_date today = false := by
    rw [h]; exact isNewDay_same today
  have h1 : newStreakCalc p today = p.daily_streak := by
    unfold newStreakCalc
    rw [hnd, if_neg (by simp)]
  have h2 : pointsEarnedCalc p today = 1 := by
    unfold pointsEarnedCalc
    rw [hnd, if_neg (by simp)]
  exact ⟨h1, h2, (updatedProfile_same_day p today boost h).1,
    (updatedProfile_same_day p today boost h).2,
    fun n => (iterate_same_day p today boost h n).1⟩

theorem c5_witness :
    newStreakCalc ⟨0, 4, some 7, 2⟩ 7 = 4 ∧
    pointsEarnedCalc ⟨0, 4, some 7, 2⟩ 7 = 1 ∧
    ((fun q => updatedProfile q 7 false)^[3] ⟨0, 4, some 7, 2⟩).daily_streak = 4 :=
  ⟨(c5_same_day_repeat ⟨0, 4, some 7, 2⟩ 7 false rfl).1,
   (c5_same_day_repeat ⟨0, 4, some 7, 2⟩ 7 false rfl).2.1,
   (c5_same_day_repeat ⟨0, 4, some 7, 2⟩ 7 false rfl).2.2.2.2 3⟩

/-- C6: a ledger entry is created iff the net point delta is non-zero; its
delta is the net delta, and its kind is "boost" whenever the boost flag is
set (regardless of sign), otherwise "streak" when more than 1 point was
earned — with a description that includes the new streak length — and
otherwise "message". -/
theorem c6_transaction_rule (p : Profile) (today : Nat) (boost : Bool) :
    ((transactionFor p today boost).isSome ↔
      pointChangeCalc p today boost ≠ 0) ∧
    ∀ t, transactionFor p today boost = some t →
      t.points_change = pointChangeCalc p today boost ∧
      (boost = true → t.transaction_type = "boost") ∧
      (boost = false → 1 < pointsEarnedCalc p today →
        t.transaction_type = "streak" ∧
        ∃ a b, t.description =
          a ++ toString (newStreakCalc p today) ++ b) ∧
      (boost = false → pointsEarnedCalc p today ≤ 1 →
        t.transaction_type = "message") := by
  constructor
  · by_cases hz : pointChangeCalc p today boost = 0
    · simp only [transactionFor]
      rw [if_neg (by simp [hz])]
      simp [hz]
    · simp only [transactionFor]
      rw [if_pos hz]
      simp [hz]
  · intro t ht
    simp only [transactionFor] at ht
    by_cases hz : pointChangeCalc p today boost = 0
    · rw [if_neg (by simp [hz])] at ht
      cases ht
    · rw [if_pos hz] at ht
      injection ht with ht
      subst ht
      refine ⟨rfl, ?_, ?_, ?_⟩
      · intro hb
        subst hb
        rfl
      · intro hb hpe
        subst hb
        constructor
        · show (if (false : Bool) = true then "boost"
            else if pointsEarnedCalc p today > 1 then "streak"
            else "message") = "streak"
          rw [if_neg (by simp), if_pos hpe]
        · refine ⟨"Daily streak bonus (", " days)", ?_⟩
          show (if (false : Bool) = true then "Boost used for priority response"
            else if pointsEarnedCalc p today > 1 then
              "Daily streak bonus (" ++ toString (newStreakCalc p today) ++ " days)"
            else "Message sent") = _
          rw [if_neg (by simp), if_pos hpe]
      · intro hb hpe
        subst hb
        show (if (false : Bool) = true then "boost"
          else if pointsEarnedCalc p today > 1 then "streak"
          else "message") = "message"
        rw [if_neg (by simp), if_neg (by omega)]

theorem c6_witness :
    pointChangeCalc ⟨0, 3, some 4, 0⟩ 5 false ≠ 0 ∧
    (transactionFor ⟨0, 3, some 4, 0⟩ 5 false).isSome ∧
    RewardTransaction.transaction_type
      ⟨6, "streak", "Daily streak bonus (4 days)"⟩ = "streak" ∧
    ∃ a b, RewardTransaction.description
      ⟨6, "streak", "Daily streak bonus (4 days)"⟩ =
        a ++ toString (newStreakCalc ⟨0, 3, some 4, 0⟩ 5) ++ b :=
  ⟨by decide,
   (c6_transaction_rule ⟨0, 3, some 4, 0⟩ 5 false).1.mpr (by decide),
   (((c6_transaction_rule ⟨0, 3, some 4, 0⟩ 5 false).2
      ⟨6, "streak", "Daily streak bonus (4 days)"⟩ rfl).2.2.1 rfl
      (by decide)).1,
   (((c6_transaction_rule ⟨0, 3, some 4, 0⟩ 5 false).2
      ⟨6, "streak", "Daily streak bonus (4 days)"⟩ rfl).2.2.1 rfl
      (by decide)).2⟩

/-- C7: with `rewardPoints >= 10`, `boost = true`, and a non-consecutive
(hence non-streak) day, the net point delta is exactly -9, the ledger entry
has kind "boost", and the request is accepted with a final balance of
`rewardPoints - 9` — in particular a balance of exactly 10 is accepted and
ends at 1. -/
theorem c7_boost_nonstreak (p : Profile) (today : Nat)
    (h10 : 10 ≤ p.reward_points)
    (hcons : isConsecutiveDay p.last_message_date today = false) :
    pointChangeCalc p today true = -9 ∧
    transactionFor p today true =
      some ⟨-9, "boost", "Boost used for priority response"⟩ ∧
    serveChat p today true = Except.ok
      (Effect.llmCall ::
        Effect.profileUpdate (updatedProfile p today true) ::
        [Effect.txnInsert ⟨-9, "boost", "Boost used for priority response"⟩],
       ⟨1, 10, newStreakCalc p today, p.reward_points - 9⟩) := by
  have hpe : pointsEarnedCalc p today = 1 := by
    unfold pointsEarnedCalc
    cases hnd : isNewDay p.last_message_date today with
    | false => rw [if_neg (by simp)]
    | true => rw [if_pos rfl, hcons, if_neg (by simp)]
  have hpc : pointChangeCalc p today true = -9 := by
    unfold pointChangeCalc
    rw [hpe]
    norm_num
  have htxn : transactionFor p today true =
      some ⟨-9, "boost", "Boost used for priority response"⟩ := by
    simp only [transactionFor]
    rw [if_pos (by rw [hpc]; norm_num), hpc]
    rfl
  refine ⟨hpc, htxn, ?_⟩
  unfold serveChat
  rw [if_neg (fun hcontra => absurd hcontra.2 (not_lt.mpr h10))]
  rw [htxn, hpe, hpc]
  simp only [Int.sub_eq_add_neg]
  rfl

theorem c7_witness :
    (10 : Int) ≤ 10 ∧
    serveChat ⟨10, 0, none, 0⟩ 5 true = Except.ok
      (Effect.llmCall ::
        Effect.profileUpdate (updatedProfile ⟨10, 0, none, 0⟩ 5 true) ::
        [Effect.txnInsert ⟨-9, "boost", "Boost used for priority response"⟩],
       ⟨1, 10, newStreakCalc ⟨10, 0, none, 0⟩ 5, (10 : Int) - 9⟩) :=
  ⟨by norm_num,
   (c7_boost_nonstreak ⟨10, 0, none, 0⟩ 5 (by norm_num) rfl).2.2⟩

/-- C8 (counterexample): the claim is refuted — no profile with a
non-negative balance admits an accepted input whose resulting balance is
negative, because the boost precondition `rewardPoints >= 10` bounds the
worst-case delta of -9. -/
theorem c8_counterexample :
    ¬ ∃ (p : Profile) (today : Nat) (boost : Bool) (effs : List Effect)
        (r : ChatResponse),
      0 ≤ p.reward_points ∧
      serveChat p today boost = Except.ok (effs, r) ∧
      r.totalPoints < 0 := by
  rintro ⟨p, today, boost, effs, r, h0, hok, hneg⟩
  have h1 := serveChat_ok_totalPoints_ge_one p today boost effs r h0 hok
  omega

/-- C8 (amended): for every accepted interaction starting from a
non-negative balance, the resulting balance is at least 1 — in particular it
is never negative, so boost cannot drive the balance below zero. -/
theorem c8_balance_stays_positive (p : Profile) (today : Nat) (boost : Bool)
    (effs : List Effect) (r : ChatResponse)
    (h0 : 0 ≤ p.reward_points)
    (hok : serveChat p today boost = Except.ok (effs, r)) :
    1 ≤ r.totalPoints ∧ 0 ≤ r.totalPoints := by
  have h1 := serveChat_ok_totalPoints_ge_one p today boost effs r h0 hok
  exact ⟨h1, by omega⟩

theorem c8_witness :
    1 ≤ ChatResponse.totalPoints ⟨1, 0, 1, 1⟩ ∧
    0 ≤ ChatResponse.totalPoints ⟨1, 0, 1, 1⟩ :=
  c8_balance_stays_positive ⟨0, 0, none, 0⟩ 5 false
    [Effect.llmCall, Effect.profileUpdate ⟨1, 1, some 5, 1⟩,
     Effect.txnInsert ⟨1, "message", "Message sent"⟩]
    ⟨1, 0, 1, 1⟩ (by norm_num) rfl

/-- C9: on the concrete profile {rewardPoints 20, dailyStreak 3,
lastMessageDate = yesterday, totalMessages 10} with boost off and
today = yesterday + 1 (epoch days 19999 and 20000), the handler yields
streak 4, 6 points earned, balance 26, and a ledger entry of kind "streak"
whose description contains the digit 4. -/
theorem c9_streak_scenario :
    serveChat ⟨20, 3, some 19999, 10⟩ 20000 false = Except.ok
      ([Effect.llmCall,
        Effect.profileUpdate ⟨26, 4, some 20000, 11⟩,
        Effect.txnInsert ⟨6, "streak", "Daily streak bonus (4 days)"⟩],
       ⟨6, 0, 4, 26⟩) ∧
    '4' ∈ ("Daily streak bonus (4 days)").toList :=
  ⟨rfl, by decide⟩

/-- C10: for every accepted interaction the computed net delta is one of
{-9, -4, 1, 6} and never 0, so the handler emits exactly one ledger entry. -/
theorem c10_delta_nonzero_one_txn (p : Profile) (today : Nat) (boost : Bool)
    (effs : List Effect) (r : ChatResponse)
    (hok : serveChat p today boost = Except.ok (effs, r)) :
    (pointChangeCalc p today boost = -9 ∨ pointChangeCalc p today boost = -4 ∨
     pointChangeCalc p today boost = 1 ∨ pointChangeCalc p today boost = 6) ∧
    pointChangeCalc p today boost ≠ 0 ∧
    ∃ t, transactionFor p today boost = some t ∧
      effs = [Effect.llmCall,
        Effect.profileUpdate (updatedProfile p today boost),
        Effect.txnInsert t] ∧
      (effs.countP fun e => match e with
        | Effect.txnInsert _ => true
        | _ => false) = 1 := by
  obtain ⟨hc, heffs, hr⟩ := serveChat_ok_inv p today boost effs r hok
  have hpe := pointsEarnedCalc_cases p today
  have hset : pointChangeCalc p today boost = -9 ∨
      pointChangeCalc p today boost = -4 ∨
      pointChangeCalc p today boost = 1 ∨
      pointChangeCalc p today boost = 6 := by
    unfold pointChangeCalc
    cases boost with
    | false =>
      have hz : (if (false : Bool) = true then (10 : Int) else 0) = 0 := rfl
      rw [hz]
      rcases hpe with h | h <;> rw [h] <;> decide
    | true =>
      have hz : (if (true : Bool) = true then (10 : Int) else 0) = 10 := rfl
      rw [hz]
      rcases hpe with h | h <;> rw [h] <;> decide
  have hnz : pointChangeCalc p today boost ≠ 0 := by
    rcases hset with h | h | h | h <;> rw [h] <;> decide
  have htis : ∃ t, transactionFor p today boost = some t := by
    simp only [transactionFor]
    rw [if_pos hnz]
    exact ⟨_, rfl⟩
  obtain ⟨t, htx⟩ := htis
  refine ⟨hset, hnz, t, htx, ?_, ?_⟩
  · rw [heffs, htx]
  · rw [heffs, htx]
    rfl

theorem c10_witness :
    (pointChangeCalc ⟨0, 0, none, 0⟩ 5 false = -9 ∨
     pointChangeCalc ⟨0, 0, none, 0⟩ 5 false = -4 ∨
     pointChangeCalc ⟨0, 0, none, 0⟩ 5 false = 1 ∨
     pointChangeCalc ⟨0, 0, none, 0⟩ 5 false = 6) ∧
    pointChangeCalc ⟨0, 0, none, 0⟩ 5 false ≠ 0 ∧
    ∃ t, transactionFor ⟨0, 0, none, 0⟩ 5 false = some t ∧
      [Effect.llmCall, Effect.profileUpdate ⟨1, 1, some 5, 1⟩,
       Effect.txnInsert ⟨1, "message", "Message sent"⟩] =
        [Effect.llmCall,
         Effect.profileUpdate (updatedProfile ⟨0, 0, none, 0⟩ 5 false),
         Effect.txnInsert t] ∧
      (List.countP (fun e => match e with
          | Effect.txnInsert _ => true
          | _ => false)
        [Effect.llmCall, Effect.profileUpdate ⟨1, 1, some 5, 1⟩,
         Effect.txnInsert ⟨1, "message", "Message sent"⟩]) = 1 :=
  c10_delta_nonzero_one_txn ⟨0, 0, none, 0⟩ 5 false
    [Effect.llmCall, Effect.profileUpdate ⟨1, 1, some 5, 1⟩,
     Effect.txnInsert ⟨1, "message", "Message sent"⟩]
    ⟨1, 0, 1, 1⟩ rfl

end CChatEarn
